import Mathlib

/-!
Shallow embedding of the hero-canvas animation engine of script.js
(the IIFE guarding on the hero-canvas element): scene scheduler and
transition alpha, the three element pools (Particle, GoldLine,
GeomShape), the skyline lit-window rule, the network edge rule, engine
initialization and the resize handler.  JavaScript numbers are modelled
as rationals; each Math.random() draw is an explicit parameter.
-/

/-- Surface dimensions: the shared mutable pair (W, H). -/
structure Env where
  W : ℚ
  H : ℚ

/-- SCENE_DURATION constant from script.js. -/
def SCENE_DURATION : ℕ := 420

/-- scenes.length: five scene renderers in the scenes array. -/
def scenesLength : ℕ := 5

/-- The scheduler state: animT, sceneTime, sceneIndex. -/
structure Clock where
  animT : ℕ
  sceneTime : ℕ
  sceneIndex : ℕ

/-- One execution of the counter/scheduler prefix of loop():
animT++; sceneTime++; if (sceneTime >= SCENE_DURATION) reset and advance. -/
def loopTick (c : Clock) : Clock :=
  if c.sceneTime + 1 ≥ SCENE_DURATION then
    { animT := c.animT + 1, sceneTime := 0,
      sceneIndex := (c.sceneIndex + 1) % scenesLength }
  else
    { animT := c.animT + 1, sceneTime := c.sceneTime + 1,
      sceneIndex := c.sceneIndex }

/-- Initial scheduler state: sceneIndex = 0, sceneTime = 0, animT = 0. -/
def clock0 : Clock :=
  { animT := 0, sceneTime := 0, sceneIndex := 0 }

/-- State after N invocations of the frame callback from engine start. -/
def runClock : ℕ → Clock
  | 0 => clock0
  | n + 1 => loopTick (runClock n)

/-- Scene transition alpha as computed in loop() from the post-increment
sceneTime: transProgress = sceneTime / SCENE_DURATION, ramp below 0.1,
ramp above 0.9, otherwise 1. -/
def sceneAlpha (sceneTime : ℕ) : ℚ :=
  if (sceneTime : ℚ) / (SCENE_DURATION : ℚ) < 1/10 then
    ((sceneTime : ℚ) / (SCENE_DURATION : ℚ)) / (1/10)
  else if (sceneTime : ℚ) / (SCENE_DURATION : ℚ) > 9/10 then
    (1 - (sceneTime : ℚ) / (SCENE_DURATION : ℚ)) / (1/10)
  else 1

theorem runClock_closed_form (N : ℕ) :
    (runClock N).animT = N ∧ (runClock N).sceneTime = N % 420 ∧
    (runClock N).sceneIndex = N / 420 % 5 := by
  induction N with
  | zero => exact ⟨rfl, rfl, rfl⟩
  | succ n ih =>
    obtain ⟨h1, h2, h3⟩ := ih
    simp only [runClock, loopTick, SCENE_DURATION, scenesLength, h1, h2, h3]
    split
    · dsimp only
      exact ⟨rfl, by omega, by omega⟩
    · dsimp only
      exact ⟨rfl, by omega, by omega⟩

/-- C1: after N frame-loop invocations the active scene index is
⌊N / 420⌋ mod 5 and the per-scene elapsed counter is N mod 420; in
particular at call 420 the engine is in scene 1 with elapsed 0, and on
every earlier call it is still in scene 0 (exactly one transition). -/
theorem scene_scheduler_correct (N : ℕ) :
    (runClock N).sceneIndex = N / 420 % 5 ∧
    (runClock N).sceneTime = N % 420 ∧
    (runClock 420).sceneIndex = 1 ∧
    (runClock 420).sceneTime = 0 ∧
    (∀ k : ℕ, k < 420 → (runClock k).sceneIndex = 0) := by
  refine ⟨(runClock_closed_form N).2.2, (runClock_closed_form N).2.1, ?_, ?_, ?_⟩
  · rw [(runClock_closed_form 420).2.2]
  · rw [(runClock_closed_form 420).2.1]
  · intro k hk
    rw [(runClock_closed_form k).2.2]
    omega

theorem scene_scheduler_correct_witness :
    7 < 420 ∧ (runClock 7).sceneIndex = 0 :=
  ⟨by norm_num, (scene_scheduler_correct 7).2.2.2.2 7 (by norm_num)⟩

theorem sceneAlpha_cast (e : ℕ) :
    sceneAlpha e =
      if (e : ℚ) / 420 < 1/10 then ((e : ℚ) / 420) / (1/10)
      else if (e : ℚ) / 420 > 9/10 then (1 - (e : ℚ) / 420) / (1/10)
      else 1 := by
  simp only [sceneAlpha, SCENE_DURATION, Nat.cast_ofNat]

theorem sceneAlpha_lt_bridge (e : ℕ) : ((e : ℚ) / 420 < 1/10) ↔ e < 42 := by
  rw [div_lt_iff₀ (by norm_num : (0:ℚ) < 420)]
  norm_num

theorem sceneAlpha_gt_bridge (e : ℕ) : ((e : ℚ) / 420 > 9/10) ↔ 378 < e := by
  rw [gt_iff_lt, lt_div_iff₀ (by norm_num : (0:ℚ) < 420)]
  norm_num

/-- C2: for elapsed e with 0 ≤ e < 420 the transition alpha is
(e/420)/0.1 when e/420 < 0.1, (1 − e/420)/0.1 when e/420 > 0.9, and 1
otherwise; alpha is 0 at e = 0, equals e/42 on the first 10% of the
duration (ramp up), equals (420 − e)/42 on the last 10% (ramp down),
and is 1 through the middle 80%. -/
theorem scene_alpha_piecewise (e : ℕ) (he : e < 420) :
    ((e : ℚ) / 420 < 1/10 → sceneAlpha e = ((e : ℚ) / 420) / (1/10)) ∧
    ((e : ℚ) / 420 > 9/10 → sceneAlpha e = (1 - (e : ℚ) / 420) / (1/10)) ∧
    (1/10 ≤ (e : ℚ) / 420 → (e : ℚ) / 420 ≤ 9/10 → sceneAlpha e = 1) ∧
    sceneAlpha 0 = 0 ∧
    (e < 42 → sceneAlpha e = (e : ℚ) / 42) ∧
    (378 < e → sceneAlpha e = (420 - (e : ℚ)) / 42) ∧
    (42 ≤ e → e ≤ 378 → sceneAlpha e = 1) := by
  have h0 : sceneAlpha 0 = 0 := by
    rw [sceneAlpha_cast]
    norm_num
  refine ⟨?_, ?_, ?_, h0, ?_, ?_, ?_⟩
  · intro h
    rw [sceneAlpha_cast, if_pos h]
  · intro h
    rw [sceneAlpha_cast, if_neg (by linarith), if_pos h]
  · intro h1 h2
    rw [sceneAlpha_cast, if_neg (by linarith), if_neg (by simp only [gt_iff_lt, not_lt]; linarith)]
  · intro h
    have hq : (e : ℚ) / 420 < 1/10 := (sceneAlpha_lt_bridge e).2 h
    rw [sceneAlpha_cast, if_pos hq]
    field_simp
    ring
  · intro h
    have hq : (e : ℚ) / 420 > 9/10 := (sceneAlpha_gt_bridge e).2 h
    rw [sceneAlpha_cast, if_neg (by linarith), if_pos hq]
    field_simp
    ring
  · intro h1 h2
    have hq1 : ¬ ((e : ℚ) / 420 < 1/10) := by
      rw [sceneAlpha_lt_bridge]
      omega
    have hq2 : ¬ ((e : ℚ) / 420 > 9/10) := by
      rw [sceneAlpha_gt_bridge]
      omega
    rw [sceneAlpha_cast, if_neg hq1, if_neg hq2]

theorem scene_alpha_piecewise_witness :
    (0 : ℕ) < 420 ∧ sceneAlpha 0 = 0 :=
  ⟨by norm_num, (scene_alpha_piecewise 0 (by norm_num)).2.2.2.1⟩

/-- One ambient particle: position, velocity, size, alpha, color
variant, age (life) and maximum lifetime, as in class Particle. -/
structure Particle where
  x : ℚ
  y : ℚ
  vx : ℚ
  vy : ℚ
  size : ℚ
  alpha : ℚ
  gold : Bool
  life : ℚ
  maxLife : ℚ

/-- The Math.random() draws consumed by one Particle.reset call, each a
rational in [0, 1). -/
structure PRand where
  rx : ℚ
  ry : ℚ
  rvx : ℚ
  rvy : ℚ
  rsize : ℚ
  ralpha : ℚ
  rgold : ℚ
  rml : ℚ

/-- Particle.reset: x = random·W, y = random·H,
vx = (random − 0.5)·0.4, vy = −random·0.6 − 0.1,
size = random·2.5 + 0.3, alpha = random·0.7 + 0.1,
gold = random > 0.6, life = 0, maxLife = 200 + random·300. -/
def Particle.reset (e : Env) (r : PRand) : Particle :=
  { x := r.rx * e.W
    y := r.ry * e.H
    vx := (r.rvx - 1/2) * (2/5)
    vy := -(r.rvy * (3/5)) - 1/10
    size := r.rsize * (5/2) + 3/10
    alpha := r.ralpha * (7/10) + 1/10
    gold := decide (r.rgold > 3/5)
    life := 0
    maxLife := 200 + r.rml * 300 }

/-- Particle.update: move by (vx, vy), increment life, and reset when
life > maxLife or y < −10.  The Bool records whether reset ran. -/
def Particle.update (p : Particle) (e : Env) (r : PRand) : Particle × Bool :=
  if p.life + 1 > p.maxLife ∨ p.y + p.vy < -10 then
    (Particle.reset e r, true)
  else
    ({ p with x := p.x + p.vx,
              y := p.y + p.vy,
              life := p.life + 1 }, false)

/-- n consecutive Particle.update calls; the Bool records whether any
of them ran reset. -/
def Particle.run (e : Env) (r : PRand) : ℕ → Particle → Particle × Bool
  | 0, p => (p, false)
  | n + 1, p =>
    let u := p.update e r
    let v := Particle.run e r n u.1
    (v.1, u.2 || v.2)

/-- Sample surface dimensions for concrete evaluations. -/
def env0 : Env := { W := 800, H := 600 }

/-- Sample random draws for a Particle.reset call. -/
def prand0 : PRand :=
  { rx := 1/2, ry := 1/2, rvx := 1/2, rvy := 1/2, rsize := 1/2,
    ralpha := 1/2, rgold := 1/2, rml := 0 }

/-- A concrete in-bounds particle with room left in its lifetime. -/
def particleA : Particle :=
  { x := 5, y := 20, vx := 1, vy := -1, size := 1, alpha := 1/2,
    gold := false, life := 0, maxLife := 250 }

/-- A concrete particle about to exit the top of the surface. -/
def particleB : Particle :=
  { x := 5, y := -12, vx := 0, vy := -1, size := 1, alpha := 1/2,
    gold := false, life := 0, maxLife := 250 }

theorem Particle.run_no_reset (e : Env) (r : PRand) (n : ℕ) (p : Particle)
    (hb : ∀ j : ℕ, 1 ≤ j → j ≤ n → p.y + (j : ℚ) * p.vy ≥ -10)
    (hl : p.life + (n : ℚ) ≤ p.maxLife) :
    Particle.run e r n p =
      ({ p with x := p.x + (n : ℚ) * p.vx,
                y := p.y + (n : ℚ) * p.vy,
                life := p.life + (n : ℚ) }, false) := by
  induction n generalizing p with
  | zero =>
    simp only [Particle.run, Nat.cast_zero, zero_mul, add_zero]
  | succ n ih =>
    have hone : ¬ (p.life + 1 > p.maxLife ∨ p.y + p.vy < -10) := by
      push_neg
      constructor
      · have : (0 : ℚ) ≤ (n : ℚ) := by positivity
        push_cast at hl
        linarith
      · have := hb 1 le_rfl (by omega)
        push_cast at this
        linarith
    simp only [Particle.run, Particle.update, if_neg hone, Bool.false_or]
    rw [ih]
    · dsimp only
      push_cast
      refine congrArg (fun q => (q, false)) ?_
      congr 1 <;> ring
    · intro j hj1 hj2
      dsimp only
      have := hb (j + 1) (by omega) (by omega)
      push_cast at this ⊢
      linarith
    · dsimp only
      push_cast at hl ⊢
      linarith

/-- C4: when the particle stays in bounds (post-move y ≥ −10), a single
update resets exactly when the incremented age exceeds maxLife; a
freshly reset particle has life 0, and iterating update from a fresh
particle performs no reset over any number n ≤ maxLife of calls (given
the in-bounds precondition throughout). -/
theorem particle_lifetime_bound (p : Particle) (e : Env) (r : PRand)
    (hy : p.y + p.vy ≥ -10) :
    ((p.update e r).2 = true ↔ p.life + 1 > p.maxLife) ∧
    (Particle.reset e r).life = 0 ∧
    (∀ n : ℕ,
      (∀ j : ℕ, 1 ≤ j → j ≤ n →
        (Particle.reset e r).y + (j : ℚ) * (Particle.reset e r).vy ≥ -10) →
      (n : ℚ) ≤ (Particle.reset e r).maxLife →
      (Particle.run e r n (Particle.reset e r)).2 = false) := by
  refine ⟨?_, rfl, ?_⟩
  · constructor
    · intro h
      by_contra hnot
      have hcond : ¬ (p.life + 1 > p.maxLife ∨ p.y + p.vy < -10) := by
        push_neg
        exact ⟨not_lt.1 hnot, by linarith⟩
      simp only [Particle.update, if_neg hcond] at h
      exact Bool.false_ne_true h
    · intro h
      simp only [Particle.update, if_pos (Or.inl h)]
  · intro n hbnd hmax
    have hrun := Particle.run_no_reset e r n (Particle.reset e r) hbnd
      (by simpa [Particle.reset] using hmax)
    rw [hrun]

theorem particle_lifetime_bound_witness :
    particleA.y + particleA.vy ≥ -10 ∧
    (Particle.reset env0 prand0).life = 0 :=
  ⟨by norm_num [particleA],
   (particle_lifetime_bound particleA env0 prand0 (by norm_num [particleA])).2.1⟩

/-- C10: exiting the top of the surface (post-move y < −10) triggers
reset on its own, even when the incremented age is still within the
maximum lifetime. -/
theorem particle_oob_reset (p : Particle) (e : Env) (r : PRand)
    (hy : p.y + p.vy < -10) (hl : p.life + 1 ≤ p.maxLife) :
    p.update e r = (Particle.reset e r, true) := by
  simp only [Particle.update, if_pos (Or.inr hy)]

theorem particle_oob_reset_witness :
    particleB.y + particleB.vy < -10 ∧
    particleB.life + 1 ≤ particleB.maxLife ∧
    particleB.update env0 prand0 = (Particle.reset env0 prand0, true) :=
  ⟨by norm_num [particleB], by norm_num [particleB],
   particle_oob_reset particleB env0 prand0
     (by norm_num [particleB]) (by norm_num [particleB])⟩

/-- A concrete particle whose age has passed its maximum lifetime. -/
def particleC : Particle :=
  { x := 5, y := 20, vx := 0, vy := 0, size := 1, alpha := 1/2,
    gold := false, life := 300, maxLife := 250 }

/-- Random draws whose position draws land the reset particle at the
top-left of the surface. -/
def prandTop : PRand :=
  { rx := 0, ry := 0, rvx := 1/2, rvy := 1/2, rsize := 1/2,
    ralpha := 1/2, rgold := 1/2, rml := 0 }

/-- C5 counterexample: an expired particle (life 300 > maxLife 250) is
reset by update, but on a surface of height 600 the new y coordinate is
ry·H = 0 — the very top — not the bottom edge (neither H nor H + 50),
refuting the claim that reset places the particle at the bottom of the
surface. -/
theorem particle_reset_not_bottom_cx :
    particleC.life + 1 > particleC.maxLife ∧
    (particleC.update env0 prandTop).2 = true ∧
    (particleC.update env0 prandTop).1.y = 0 ∧
    env0.H = 600 ∧
    (particleC.update env0 prandTop).1.y ≠ env0.H ∧
    (particleC.update env0 prandTop).1.y ≠ env0.H + 50 := by
  norm_num [particleC, prandTop, env0, Particle.update, Particle.reset]

/-- C5 (amended): whenever a particle's age passes its maximum
lifetime, update reinitializes it in place via Particle.reset to a new
random position anywhere on the surface (x = rx·W, y = ry·H, which lies
inside [0, W) × [0, H) for draws in [0, 1)), with fresh velocity, age 0
and a fresh maximum lifetime. -/
theorem particle_reset_fresh (p : Particle) (e : Env) (r : PRand)
    (h : p.life + 1 > p.maxLife) :
    p.update e r = (Particle.reset e r, true) ∧
    (Particle.reset e r).x = r.rx * e.W ∧
    (Particle.reset e r).y = r.ry * e.H ∧
    (Particle.reset e r).vx = (r.rvx - 1/2) * (2/5) ∧
    (Particle.reset e r).vy = -(r.rvy * (3/5)) - 1/10 ∧
    (Particle.reset e r).life = 0 ∧
    (Particle.reset e r).maxLife = 200 + r.rml * 300 ∧
    (0 ≤ r.ry → r.ry < 1 → 0 < e.H →
      0 ≤ (Particle.reset e r).y ∧ (Particle.reset e r).y < e.H) := by
  refine ⟨by simp only [Particle.update, if_pos (Or.inl h)],
    rfl, rfl, rfl, rfl, rfl, rfl, ?_⟩
  intro h0 h1 hH
  constructor
  · exact mul_nonneg h0 (le_of_lt hH)
  · calc r.ry * e.H < 1 * e.H := by
          exact mul_lt_mul_of_pos_right h1 hH
      _ = e.H := one_mul e.H

theorem particle_reset_fresh_witness :
    particleC.life + 1 > particleC.maxLife ∧
    particleC.update env0 prandTop = (Particle.reset env0 prandTop, true) :=
  ⟨by norm_num [particleC],
   (particle_reset_fresh particleC env0 prandTop (by norm_num [particleC])).1⟩

/-- One light streak: start point, target point, progress, speed,
alpha, stroke width, color variant and bounded trail, as in class
GoldLine. -/
structure GoldLine where
  x : ℚ
  y : ℚ
  targetX : ℚ
  targetY : ℚ
  progress : ℚ
  speed : ℚ
  alpha : ℚ
  width : ℚ
  gold : Bool
  trail : List (ℚ × ℚ)

/-- The Math.random() draws consumed by one GoldLine.reset call. -/
structure GRand where
  rx : ℚ
  rtx : ℚ
  rs : ℚ
  ra : ℚ
  rw : ℚ
  rc : ℚ

/-- GoldLine.reset: start at (random·W, H + 50), target at
(x + (random − 0.5)·300, −50), progress 0,
speed = 0.002 + random·0.003, alpha = random·0.35 + 0.08,
width = random·1.5 + 0.3, color by a coin flip, empty trail. -/
def GoldLine.reset (e : Env) (r : GRand) : GoldLine :=
  { x := r.rx * e.W
    y := e.H + 50
    targetX := r.rx * e.W + (r.rtx - 1/2) * 300
    targetY := -50
    progress := 0
    speed := 1/500 + r.rs * (3/1000)
    alpha := r.ra * (7/20) + 2/25
    width := r.rw * (3/2) + 3/10
    gold := decide (r.rc > 1/2)
    trail := [] }

/-- GoldLine.update: advance progress by speed, append the interpolated
point to the trail, drop the oldest point when the trail exceeds 60,
and reset once progress reaches 1.  The Bool records whether the
oldest point was evicted. -/
def GoldLine.update (g : GoldLine) (e : Env) (r : GRand) : GoldLine × Bool :=
  let progress := g.progress + g.speed
  let cx := g.x + (g.targetX - g.x) * progress
  let cy := g.y + (g.targetY - g.y) * progress
  let trail1 := g.trail ++ [(cx, cy)]
  let trail2 := if 60 < trail1.length then trail1.tail else trail1
  if progress ≥ 1 then
    (GoldLine.reset e r, decide (60 < trail1.length))
  else
    ({ g with progress := progress, trail := trail2 },
     decide (60 < trail1.length))

/-- The streak obtained after n update calls from a fresh reset. -/
def GoldLine.iter (e : Env) (r : GRand) : ℕ → GoldLine
  | 0 => GoldLine.reset e r
  | n + 1 => ((GoldLine.iter e r n).update e r).1

theorem GoldLine.update_trail_le (g : GoldLine) (e : Env) (r : GRand)
    (h : g.trail.length ≤ 60) :
    (g.update e r).1.trail.length ≤ 60 := by
  simp only [GoldLine.update, List.length_append, List.length_singleton]
  split
  · simp [GoldLine.reset]
  · split
    · simp only [List.length_tail, List.length_append, List.length_singleton]
      omega
    · simp only [List.length_append, List.length_singleton]
      omega

/-- A sample set of random draws for GoldLine.reset. -/
def grand0 : GRand :=
  { rx := 1/2, rtx := 1/2, rs := 1/2, ra := 1/2, rw := 1/2, rc := 1/2 }

/-- C6: an update never leaves more than 60 trail points; the oldest
point is evicted exactly when appending the new interpolated point
would push the length past 60; a fresh streak starts with an empty
trail, and every streak reached from a fresh reset by updates keeps
its trail within 60 points. -/
theorem goldline_trail_cap (g : GoldLine) (e : Env) (r : GRand)
    (h : g.trail.length ≤ 60) :
    (g.update e r).1.trail.length ≤ 60 ∧
    ((g.update e r).2 = true ↔ 60 < g.trail.length + 1) ∧
    (GoldLine.reset e r).trail.length = 0 ∧
    (∀ n : ℕ, (GoldLine.iter e r n).trail.length ≤ 60) := by
  refine ⟨GoldLine.update_trail_le g e r h, ?_, rfl, ?_⟩
  · simp only [GoldLine.update, List.length_append, List.length_singleton]
    split
    · simp
    · simp
  · intro n
    induction n with
    | zero => simp [GoldLine.iter, GoldLine.reset]
    | succ n ih => exact GoldLine.update_trail_le _ e r ih

theorem goldline_trail_cap_witness :
    (GoldLine.reset env0 grand0).trail.length ≤ 60 ∧
    ((GoldLine.reset env0 grand0).update env0 grand0).1.trail.length ≤ 60 :=
  ⟨by simp [GoldLine.reset],
   (goldline_trail_cap (GoldLine.reset env0 grand0) env0 grand0
     (by simp [GoldLine.reset])).1⟩

/-- The edge-distance threshold W · 0.35 from drawNetwork. -/
def edgeThreshold (W : ℚ) : ℚ := W * (7/20)

/-- Edge stroke opacity alpha · 0.15 · (1 − d / (W · 0.35)) from
drawNetwork. -/
def edgeOpacity (alpha W d : ℚ) : ℚ :=
  alpha * (3/20) * (1 - d / edgeThreshold W)

/-- Number of network nodes in drawNetwork. -/
def networkCount : ℕ := 12

/-- The ordered pairs (i, j), i < j, whose edge drawNetwork strokes:
the double forEach skips j ≤ i and strokes when dist i j < threshold.
The inter-node distance is abstracted as a function of the indices. -/
def networkEdges (dist : ℕ → ℕ → ℚ) (W : ℚ) : List (ℕ × ℕ) :=
  (List.range networkCount).flatMap fun i =>
    ((List.range networkCount).filter fun j =>
      decide (i < j) && decide (dist i j < edgeThreshold W)).map fun j => (i, j)

theorem networkEdges_mem (dist : ℕ → ℕ → ℚ) (W : ℚ) (i j : ℕ) :
    (i, j) ∈ networkEdges dist W ↔
      i < 12 ∧ j < 12 ∧ i < j ∧ dist i j < edgeThreshold W := by
  simp only [networkEdges, networkCount, List.mem_flatMap, List.mem_map,
    List.mem_filter, List.mem_range, Bool.and_eq_true, decide_eq_true_eq,
    Prod.mk.injEq]
  constructor
  · rintro ⟨a, ha, b, ⟨hb, hab, hd⟩, rfl, rfl⟩
    exact ⟨ha, hb, hab, hd⟩
  · rintro ⟨hi, hj, hij, hd⟩
    exact ⟨i, hi, j, ⟨hj, hij, hd⟩, rfl, rfl⟩

/-- C7: an edge between distinct nodes i < j is drawn iff their
distance is strictly below W · 0.35; its opacity is
alpha · 0.15 · (1 − d/threshold), strictly decreasing in d, and it
tends to 0 as d approaches the threshold from below. -/
theorem network_edge_rule (dist : ℕ → ℕ → ℚ) (alpha W : ℚ)
    (hW : 0 < W) (ha : 0 < alpha) :
    (∀ i j : ℕ, i < 12 → j < 12 → i < j →
      ((i, j) ∈ networkEdges dist W ↔ dist i j < W * (7/20))) ∧
    (∀ d : ℚ, edgeOpacity alpha W d =
      alpha * (3/20) * (1 - d / (W * (7/20)))) ∧
    (∀ d1 d2 : ℚ, d1 < d2 →
      edgeOpacity alpha W d2 < edgeOpacity alpha W d1) ∧
    (∀ ε : ℚ, 0 < ε → ∃ δ : ℚ, 0 < δ ∧ ∀ d : ℚ,
      edgeThreshold W - δ < d → d < edgeThreshold W →
      edgeOpacity alpha W d < ε) := by
  have hT : 0 < edgeThreshold W := by
    simp only [edgeThreshold]
    positivity
  have hc : 0 < alpha * (3/20 : ℚ) := by positivity
  refine ⟨?_, ?_, ?_, ?_⟩
  · intro i j hi hj hij
    rw [networkEdges_mem]
    simp only [edgeThreshold]
    tauto
  · intro d
    simp only [edgeOpacity, edgeThreshold]
  · intro d1 d2 h12
    have hdd : d1 / edgeThreshold W < d2 / edgeThreshold W := by gcongr
    simp only [edgeOpacity]
    exact mul_lt_mul_of_pos_left (by linarith) hc
  · intro ε hε
    refine ⟨ε * edgeThreshold W / (alpha * (3/20)), by positivity, ?_⟩
    intro d hd1 hd2
    have hrw : edgeOpacity alpha W d =
        alpha * (3/20) * ((edgeThreshold W - d) / edgeThreshold W) := by
      simp only [edgeOpacity]
      field_simp
    rw [hrw]
    have hstep : (edgeThreshold W - d) / edgeThreshold W <
        (ε * edgeThreshold W / (alpha * (3/20))) / edgeThreshold W := by
      gcongr
      linarith
    have hval : alpha * (3/20) *
        ((ε * edgeThreshold W / (alpha * (3/20))) / edgeThreshold W) = ε := by
      field_simp
      ring
    calc alpha * (3/20) * ((edgeThreshold W - d) / edgeThreshold W)
        < alpha * (3/20) *
          ((ε * edgeThreshold W / (alpha * (3/20))) / edgeThreshold W) :=
          mul_lt_mul_of_pos_left hstep hc
      _ = ε := hval

theorem network_edge_rule_witness :
    (0 : ℚ) < 800 ∧ (0 : ℚ) < 1 ∧
    (∀ d : ℚ, edgeOpacity 1 800 d = 1 * (3/20) * (1 - d / (800 * (7/20)))) :=
  ⟨by norm_num, by norm_num,
   (network_edge_rule (fun _ _ => 0) 1 800 (by norm_num) (by norm_num)).2.1⟩

/-- The lit test of a skyline window from drawSkyline, over an
abstract sine implementation: sin(row·3.7 + col·2.1 + b.x·10) > 0.1.
The time parameter t of drawSkyline and an ambient RNG state are
passed as arguments to express that the decision ignores both. -/
def litWindow (sine : ℚ → ℚ) (t : ℚ) (rng : ℕ) (bx : ℚ)
    (row col : ℕ) : Bool :=
  decide (sine ((row : ℚ) * (37/10) + (col : ℚ) * (21/10) + bx * 10) > 1/10)

/-- C8: the skyline lit-window decision is a pure function of the
building position and the row/column: any two evaluations at the same
(bx, row, col) agree, whatever the time parameter or RNG state. -/
theorem skyline_lit_deterministic (sine : ℚ → ℚ) (t1 t2 : ℚ)
    (rng1 rng2 : ℕ) (bx : ℚ) (row col : ℕ) :
    litWindow sine t1 rng1 bx row col = litWindow sine t2 rng2 bx row col :=
  rfl

/-- One drifting background polygon, as in class GeomShape. -/
structure GeomShape where
  x : ℚ
  y : ℚ
  size : ℚ
  rotation : ℚ
  rotSpeed : ℚ
  alpha : ℚ
  sides : ℕ
  vx : ℚ
  vy : ℚ
  gold : Bool

/-- The Math.random() draws consumed by one GeomShape.reset call. -/
structure SRand where
  rx : ℚ
  ry : ℚ
  rsize : ℚ
  rrot : ℚ
  rrotSpeed : ℚ
  ralpha : ℚ
  rsides : ℚ
  rvx : ℚ
  rvy : ℚ
  rgold : ℚ

/-- The exact rational value of the IEEE-754 double Math.PI. -/
def mathPI : ℚ := 884279719003555 / 281474976710656

/-- GeomShape.reset from the source: random position, size 40..160,
random rotation in [0, 2π), rotation speed (random − 0.5)·0.003,
alpha 0.015 + random·0.05, sides drawn from [3, 4, 6], velocity
(random − 0.5)·0.15 per axis, gold = random > 0.4. -/
def GeomShape.reset (e : Env) (r : SRand) : GeomShape :=
  { x := r.rx * e.W
    y := r.ry * e.H
    size := 40 + r.rsize * 120
    rotation := r.rrot * mathPI * 2
    rotSpeed := (r.rrotSpeed - 1/2) * (3/1000)
    alpha := 3/200 + r.ralpha * (1/20)
    sides := ([3, 4, 6] : List ℕ).getD (Int.toNat ⌊r.rsides * 3⌋) 0
    vx := (r.rvx - 1/2) * (3/20)
    vy := (r.rvy - 1/2) * (3/20)
    gold := decide (r.rgold > 2/5) }

/-- GeomShape.update: drift, rotate, and reset on leaving the padded
region [−200, W + 200] × [−200, H + 200]. -/
def GeomShape.update (g : GeomShape) (e : Env) (r : SRand) :
    GeomShape × Bool :=
  if g.x + g.vx < -200 ∨ g.x + g.vx > e.W + 200 ∨
      g.y + g.vy < -200 ∨ g.y + g.vy > e.H + 200 then
    (GeomShape.reset e r, true)
  else
    ({ g with x := g.x + g.vx,
              y := g.y + g.vy,
              rotation := g.rotation + g.rotSpeed }, false)

/-- The whole mutable state owned by the hero-canvas IIFE: the shared
dimensions, the canvas backing size, the three pools, the scheduler
counters, and whether the resize listener and the frame loop were set
up. -/
structure EngineState where
  env : Env
  canvasW : ℚ
  canvasH : ℚ
  particles : List Particle
  goldLines : List GoldLine
  shapes : List GeomShape
  clock : Clock
  resizeListenerRegistered : Bool
  loopScheduled : Bool

/-- Engine startup: the IIFE returns immediately when the hero-canvas
element is absent, otherwise it sizes the canvas, registers the resize
listener, builds the pools (150 particles, 10 streaks with randomized
initial progress, 16 shapes) and schedules the loop. -/
def initEngine (canvas : Option Unit) (e : Env) (pr : ℕ → PRand)
    (gr : ℕ → GRand) (gp : ℕ → ℚ) (sr : ℕ → SRand) : Option EngineState :=
  match canvas with
  | none => none
  | some _ =>
    some
      { env := e
        canvasW := e.W
        canvasH := e.H
        particles := (List.range 150).map fun i => Particle.reset e (pr i)
        goldLines := (List.range 10).map fun i =>
          { GoldLine.reset e (gr i) with progress := gp i }
        shapes := (List.range 16).map fun i => GeomShape.reset e (sr i)
        clock := clock0
        resizeListenerRegistered := true
        loopScheduled := true }

/-- The resize handler: W = canvas.width = hero box width (falling
back to the viewport), H likewise; nothing else is touched. -/
def resize (s : EngineState) (hero : Option Env) (viewport : Env) :
    EngineState :=
  { s with env := hero.getD viewport
           canvasW := (hero.getD viewport).W
           canvasH := (hero.getD viewport).H }

/-- The state part of one loop() call: advance the scheduler counters
and update every pooled element against the current shared
dimensions. -/
def frameStep (s : EngineState) (pr : ℕ → PRand) (gr : ℕ → GRand)
    (sr : ℕ → SRand) : EngineState :=
  { s with clock := loopTick s.clock
           particles := s.particles.enum.map fun ip =>
             (ip.2.update s.env (pr ip.1)).1
           goldLines := s.goldLines.enum.map fun ig =>
             (ig.2.update s.env (gr ig.1)).1
           shapes := s.shapes.enum.map fun ih =>
             (ih.2.update s.env (sr ih.1)).1 }

/-- C3: with the hero-canvas element absent, initEngine produces no
engine state at all — no pools, no resize listener, no scheduled loop
and no error — while with the element present it produces one. -/
theorem init_no_canvas_noop (e : Env) (pr : ℕ → PRand) (gr : ℕ → GRand)
    (gp : ℕ → ℚ) (sr : ℕ → SRand) :
    initEngine none e pr gr gp sr = none ∧
    (initEngine (some ()) e pr gr gp sr).isSome = true :=
  ⟨rfl, rfl⟩

/-- C9: a resize between frames overwrites only the shared dimensions
and the canvas backing size; particles, streaks, shapes and the
scheduler state are untouched, and the very next frame updates every
pooled element against the new dimensions. -/
theorem resize_frame_effect (s : EngineState) (hero : Option Env)
    (viewport : Env) (pr : ℕ → PRand) (gr : ℕ → GRand) (sr : ℕ → SRand) :
    (resize s hero viewport).particles = s.particles ∧
    (resize s hero viewport).goldLines = s.goldLines ∧
    (resize s hero viewport).shapes = s.shapes ∧
    (resize s hero viewport).clock = s.clock ∧
    (resize s hero viewport).env = hero.getD viewport ∧
    (resize s hero viewport).canvasW = (hero.getD viewport).W ∧
    (resize s hero viewport).canvasH = (hero.getD viewport).H ∧
    (frameStep (resize s hero viewport) pr gr sr).particles =
      s.particles.enum.map fun ip =>
        (ip.2.update (hero.getD viewport) (pr ip.1)).1 :=
  ⟨rfl, rfl, rfl, rfl, rfl, rfl, rfl, rfl⟩
